import Mathlib

/-!
Verification of the cf-ddns repository: a dynamic-DNS system with an edge
worker that reports the requester's connecting IP (src/cf-ddns-worker) and a
client that fetches that IP and updates a Cloudflare DNS record
(src/cf-ddns-client), sharing a response-envelope model (src/cf-ddns).

The Rust source is shallowly embedded: IP addresses are structures of `Nat`
bytes/segments, the textual IP parser and formatters are translated from the
Rust standard library (`core::net::parser`, `Display for Ipv4Addr/Ipv6Addr`)
which the worker and client call, fallible operations return `Except`, and
each network round trip is modelled by an `HttpResult` oracle describing the
transport outcome the code then interprets.
-/

set_option maxRecDepth 4000

/-- An IPv4 address: four octets, each in 0..255 (`std::net::Ipv4Addr`). -/
structure Ipv4Addr where
  a : Nat
  b : Nat
  c : Nat
  d : Nat
deriving DecidableEq, Repr

/-- An IPv6 address: eight 16-bit segments (`std::net::Ipv6Addr`),
`s0` the most significant. -/
structure Ipv6Addr where
  s0 : Nat
  s1 : Nat
  s2 : Nat
  s3 : Nat
  s4 : Nat
  s5 : Nat
  s6 : Nat
  s7 : Nat
deriving DecidableEq, Repr

/-- `std::net::IpAddr`: a V4 or V6 address. -/
inductive IpAddr where
  | V4 (addr : Ipv4Addr)
  | V6 (addr : Ipv6Addr)
deriving DecidableEq, Repr

/-- The segments of an IPv6 address as a list (`Ipv6Addr::segments`). -/
def Ipv6Addr.segments (v : Ipv6Addr) : List Nat :=
  [v.s0, v.s1, v.s2, v.s3, v.s4, v.s5, v.s6, v.s7]

/-- Build an `Ipv6Addr` from a list of 8 segments (callers always pass 8). -/
def Ipv6Addr.ofGroups : List Nat → Ipv6Addr
  | [a, b, c, d, e, f, g, h] => ⟨a, b, c, d, e, f, g, h⟩
  | _ => ⟨0, 0, 0, 0, 0, 0, 0, 0⟩

/-- `Ipv6Addr::to_ipv4_mapped`: an address whose octets are
`[0,0,0,0,0,0,0,0,0,0,0xff,0xff,a,b,c,d]` yields `Some(a.b.c.d)`. -/
def Ipv6Addr.toIpv4Mapped (v : Ipv6Addr) : Option Ipv4Addr :=
  if v.s0 = 0 ∧ v.s1 = 0 ∧ v.s2 = 0 ∧ v.s3 = 0 ∧ v.s4 = 0 ∧ v.s5 = 0xffff then
    some ⟨v.s6 / 256, v.s6 % 256, v.s7 / 256, v.s7 % 256⟩
  else
    none

/-- `Ipv6Addr::to_canonical`: the IPv4-mapped form collapses to its IPv4
address, any other address stays IPv6. -/
def Ipv6Addr.toCanonical (v : Ipv6Addr) : IpAddr :=
  match v.toIpv4Mapped with
  | some v4 => .V4 v4
  | none => .V6 v

/-- `IpAddr::to_canonical`: V4 is already canonical, V6 is canonicalized. -/
def IpAddr.toCanonical : IpAddr → IpAddr
  | .V4 v4 => .V4 v4
  | .V6 v6 => v6.toCanonical

/-! ## The textual IP parser (`core::net::parser`)

Translated from the Rust standard library's parser, which
`str::parse::<IpAddr>` in the worker invokes.  A reader function takes the
remaining input and returns `none` (no characters consumed — Rust's
`read_atomically` backtracking) or the parsed value with the rest of the
input. -/

/-- `char::to_digit(radix)`: decimal digits then letters, rejected at
the radix. -/
def charToDigit (radix : Nat) (c : Char) : Option Nat :=
  let v : Option Nat :=
    if '0' ≤ c ∧ c ≤ '9' then some (c.toNat - '0'.toNat)
    else if 'a' ≤ c ∧ c ≤ 'z' then some (c.toNat - 'a'.toNat + 10)
    else if 'A' ≤ c ∧ c ≤ 'Z' then some (c.toNat - 'A'.toNat + 10)
    else none
  match v with
  | some d => if d < radix then some d else none
  | none => none

/-- The digit-consuming loop of `Parser::read_number`: accumulate digits in
`radix`, failing the whole read on overflow past `bound` (Rust's checked
arithmetic on the target integer type) or on more than `maxDigits` digits;
a non-digit character ends the loop normally. -/
def readNumberLoop (radix maxDigits bound : Nat) :
    List Char → Nat → Nat → Option (Nat × Nat × List Char)
  | [], acc, count => some (acc, count, [])
  | c :: rest, acc, count =>
    match charToDigit radix c with
    | none => some (acc, count, c :: rest)
    | some d =>
      let acc2 := acc * radix + d
      if bound ≤ acc2 then none
      else if maxDigits < count + 1 then none
      else readNumberLoop radix maxDigits bound rest acc2 (count + 1)

/-- `Parser::read_number(radix, Some(maxDigits), allowZeroPrefix)` on an
integer type with `bound` values: at least one digit, and a leading zero is
rejected for multi-digit numbers unless `allowZeroPrefix`. -/
def readNumber (radix maxDigits : Nat) (allowZeroPrefix : Bool) (bound : Nat)
    (input : List Char) : Option (Nat × List Char) :=
  let hasLeadingZero := input.head? = some '0'
  match readNumberLoop radix maxDigits bound input 0 0 with
  | none => none
  | some (acc, count, rest) =>
    if count = 0 then none
    else if ¬allowZeroPrefix ∧ hasLeadingZero ∧ count > 1 then none
    else some (acc, rest)

/-- `Parser::read_separator(sep, index, inner)`: every group after the first
is preceded by the separator character. -/
def readSeparator {α : Type} (sep : Char) (i : Nat)
    (inner : List Char → Option (α × List Char)) (input : List Char) :
    Option (α × List Char) :=
  if i = 0 then inner input
  else
    match input with
    | [] => none
    | c :: rest => if c = sep then inner rest else none

/-- `Parser::read_ipv4_addr`: four dot-separated decimal octets, at most
three digits each, no leading zeros, each below 256. -/
def readIpv4Addr (input : List Char) : Option (Ipv4Addr × List Char) := do
  let (a, r1) ← readSeparator '.' 0 (readNumber 10 3 false 256) input
  let (b, r2) ← readSeparator '.' 1 (readNumber 10 3 false 256) r1
  let (c, r3) ← readSeparator '.' 2 (readNumber 10 3 false 256) r2
  let (d, r4) ← readSeparator '.' 3 (readNumber 10 3 false 256) r3
  some (⟨a, b, c, d⟩, r4)

/-- The loop of the `read_groups` helper of `Parser::read_ipv6_addr`.  Rust
iterates a slot index `i` up to the slot count `limit`; here `fuel` is the
number of slots still free (`limit - i`), so the recursion is structural.
Reads colon-separated 16-bit hex groups into `acc`, allowing a trailing
embedded IPv4 address when at least two slots remain (`i + 1 < limit`, i.e.
`0 < fuel` after taking this slot); returns the groups read, whether an
embedded IPv4 address ended them, and the rest of the input. -/
def readGroupsGo : Nat → Nat → List Char → List Nat →
    (List Nat × Bool × List Char)
  | 0, _, input, acc => (acc, false, input)
  | fuel + 1, i, input, acc =>
    match
      (if 0 < fuel then readSeparator ':' i readIpv4Addr input
       else none) with
    | some (v4, rest) =>
      (acc ++ [v4.a * 256 + v4.b, v4.c * 256 + v4.d], true, rest)
    | none =>
      match readSeparator ':' i (readNumber 16 4 true 65536) input with
      | some (g, rest) => readGroupsGo fuel (i + 1) rest (acc ++ [g])
      | none => (acc, false, input)

/-- `read_groups(p, groups)` with `limit` slots, starting at slot 0. -/
def readGroups (limit : Nat) (input : List Char) :
    (List Nat × Bool × List Char) :=
  readGroupsGo limit 0 input []

/-- `Parser::read_ipv6_addr`: a head of groups (possibly all eight), or a
head, a `::`, and a tail that fills the low segments, zeros in between; an
embedded IPv4 part is only allowed at the tail end. -/
def readIpv6Addr (input : List Char) : Option (Ipv6Addr × List Char) :=
  let (head, headIpv4, r1) := readGroups 8 input
  if head.length = 8 then some (Ipv6Addr.ofGroups head, r1)
  else if headIpv4 then none
  else
    match r1 with
    | ':' :: ':' :: r2 =>
      let limit := 8 - (head.length + 1)
      let (tail, _, r3) := readGroups limit r2
      let segs := head ++ List.replicate (8 - head.length - tail.length) 0 ++ tail
      some (Ipv6Addr.ofGroups segs, r3)
    | _ => none

/-- `Parser::read_ip_addr`: IPv4 first, otherwise IPv6, from the same
position. -/
def readIpAddr (input : List Char) : Option (IpAddr × List Char) :=
  match readIpv4Addr input with
  | some (v4, rest) => some (.V4 v4, rest)
  | none =>
    match readIpv6Addr input with
    | some (v6, rest) => some (.V6 v6, rest)
    | none => none

/-- `str::parse::<IpAddr>`: the reader must consume the whole string
(`Parser::parse_with`). -/
def parseIpAddr (s : String) : Option IpAddr :=
  match readIpAddr s.data with
  | some (ip, []) => some ip
  | _ => none

example : parseIpAddr "127.0.0.1" = some (.V4 ⟨127, 0, 0, 1⟩) := by decide
example : parseIpAddr "invalid" = none := by decide
example : parseIpAddr "::1" = some (.V6 ⟨0, 0, 0, 0, 0, 0, 0, 1⟩) := by decide
example : parseIpAddr "::ffff:7f00:1" =
    some (.V6 ⟨0, 0, 0, 0, 0, 0xffff, 0x7f00, 1⟩) := by decide
example : parseIpAddr "1.2.3.4x" = none := by decide
example : parseIpAddr "01.2.3.4" = none := by decide
example : parseIpAddr "::ffff:127.0.0.1" =
    some (.V6 ⟨0, 0, 0, 0, 0, 0xffff, 0x7f00, 1⟩) := by decide

/-! ## Address formatting (`Display for Ipv4Addr` / `Display for Ipv6Addr`) -/

/-- `Display for Ipv4Addr`: dotted decimal. -/
def Ipv4Addr.str (v : Ipv4Addr) : String :=
  Nat.repr v.a ++ "." ++ Nat.repr v.b ++ "." ++ Nat.repr v.c ++ "." ++ Nat.repr v.d

/-- A lowercase hexadecimal numeral without padding (Rust's `\x7b:x\x7d`). -/
def hexStr (n : Nat) : String :=
  String.mk (Nat.toDigits 16 n)

/-- A run of zero segments (`struct Span` in `Display for Ipv6Addr`). -/
structure Span where
  start : Nat
  len : Nat
deriving DecidableEq, Repr

/-- The longest (leftmost on ties) run of zero segments, as computed by the
fold in `Display for Ipv6Addr`. -/
def longestZeroRun (segs : List Nat) : Span :=
  (segs.enum.foldl
    (fun (st : Span × Span) (p : Nat × Nat) =>
      let longest := st.1
      let current := st.2
      if p.2 = 0 then
        let current :=
          if current.len = 0 then { start := p.1, len := 1 }
          else { current with len := current.len + 1 }
        let longest := if current.len > longest.len then current else longest
        (longest, current)
      else (longest, { start := 0, len := 0 }))
    ({ start := 0, len := 0 }, { start := 0, len := 0 })).1

/-- `fmt_subslice`: hex segments joined by colons. -/
def fmtSubslice (segs : List Nat) : String :=
  String.intercalate ":" (segs.map hexStr)

/-- `Display for Ipv6Addr`: an IPv4-mapped address prints as
`::ffff:a.b.c.d`; otherwise the longest zero run of length at least two is
elided as `::`, and segments print as lowercase hex. -/
def Ipv6Addr.str (v : Ipv6Addr) : String :=
  match v.toIpv4Mapped with
  | some v4 => "::ffff:" ++ v4.str
  | none =>
    let segs := v.segments
    let zeroes := longestZeroRun segs
    if zeroes.len > 1 then
      fmtSubslice (segs.take zeroes.start) ++ "::" ++
        fmtSubslice (segs.drop (zeroes.start + zeroes.len))
    else
      fmtSubslice segs

/-- `Display for IpAddr` / `ToString`. -/
def IpAddr.str : IpAddr → String
  | .V4 v4 => v4.str
  | .V6 v6 => v6.str

example : Ipv4Addr.str ⟨127, 0, 0, 1⟩ = "127.0.0.1" := by decide
example : Ipv6Addr.str ⟨0, 0, 0, 0, 0, 0, 0, 1⟩ = "::1" := by decide
example : Ipv6Addr.str ⟨0x2001, 0xdb8, 0, 0, 1, 0, 0, 1⟩ =
    "2001:db8::1:0:0:1" := by decide
example : Ipv6Addr.str ⟨0, 0, 0, 0, 0, 0xffff, 0x7f00, 1⟩ =
    "::ffff:127.0.0.1" := by decide
example : Ipv6Addr.str ⟨0, 0, 0, 0, 0, 0, 0, 0⟩ = "::" := by decide

/-! ## The shared envelope model (src/cf-ddns/src/lib.rs) -/

namespace CfDdns

/-- `cf_ddns::Error`: the errors of the worker, shared between both halves. -/
inductive Error where
  | HeaderNotFound
  | InvalidIp (ip : String)
  | V6NotSupported
deriving DecidableEq, Repr

/-- `Display for Error` (lib.rs lines 23-31). -/
def Error.message : Error → String
  | .HeaderNotFound => "CF-Connecting-IP header not found."
  | .InvalidIp ip => "Invalid IP address: " ++ ip
  | .V6NotSupported => "IPv6 addresses are not supported."

/-- `cf_ddns::ResponseInfo<TCode>`: an error code with a human-readable
message. -/
structure ResponseInfo (TCode : Type) where
  code : TCode
  message : String
deriving DecidableEq, Repr

/-- `From<Error> for ResponseInfo<Error>`. -/
def ResponseInfo.ofError (err : Error) : ResponseInfo Error :=
  { code := err, message := err.message }

/-- `cf_ddns::Response`: the envelope the worker is documented to reply
with and the client decodes. -/
structure Response where
  success : Bool
  errors : List (ResponseInfo Error)
  result : Option Ipv4Addr
deriving DecidableEq, Repr

/-- `From<Ipv4Addr> for Response`. -/
def Response.ofIp (ip : Ipv4Addr) : Response :=
  { success := true, errors := [], result := some ip }

/-- `From<Error> for Response`. -/
def Response.ofError (err : Error) : Response :=
  { success := false, errors := [ResponseInfo.ofError err], result := none }

/-- `From<Result<Ipv4Addr, Error>> for Response`. -/
def Response.ofResult : Except Error Ipv4Addr → Response
  | .ok ip => Response.ofIp ip
  | .error err => Response.ofError err

end CfDdns

/-! ## The edge worker (src/cf-ddns-worker/src/lib.rs) -/

namespace Worker

/-- `cf_ddns_worker::CfConnectingIpError`. -/
inductive CfConnectingIpError where
  | HeaderNotFound
  | InvalidIp (ip : String)
  | V6NotSupported
deriving DecidableEq, Repr

/-- `cf_ddns_worker::Responses`: the worker's outcome for one request. -/
inductive Responses where
  | Ok (ip : Ipv4Addr)
  | BadRequest (err : CfConnectingIpError)
deriving DecidableEq, Repr

/-- `respond(headers)`: the connecting-IP normalizer, a function of the
value of the `CF-Connecting-IP` header (`none` when absent).  Faithful
unfolding of the combinator chain in lib.rs lines 49-64: missing header →
`HeaderNotFound`; unparseable value → `InvalidIp(raw)`; parsed address is
canonicalized (`to_canonical`, collapsing IPv4-mapped IPv6) and then split:
V4 is accepted, remaining V6 is `V6NotSupported`. -/
def respond (header : Option String) : Responses :=
  match header with
  | none => .BadRequest .HeaderNotFound
  | some ip =>
    match parseIpAddr ip with
    | none => .BadRequest (.InvalidIp ip)
    | some addr =>
      match addr.toCanonical with
      | .V4 v4 => .Ok v4
      | .V6 _ => .BadRequest .V6NotSupported

/-- The HTTP response the `worker` crate builds: a status code and a body.
`Response::ok(body)` is status 200 with a plain body, `Response::error(msg,
status)` is the given status with the message as body. -/
structure HttpResponse where
  status : Nat
  body : String
deriving DecidableEq, Repr

/-- `worker::Response::ok` (from the worker runtime crate). -/
def HttpResponse.ok (body : String) : HttpResponse :=
  { status := 200, body := body }

/-- `worker::Response::error` (from the worker runtime crate). -/
def HttpResponse.error (msg : String) (status : Nat) : HttpResponse :=
  { status := status, body := msg }

/-- `From<CfConnectingIpError> for Response` (lib.rs lines 34-47). -/
def CfConnectingIpError.toResponse : CfConnectingIpError → HttpResponse
  | .HeaderNotFound => HttpResponse.error "CF-Connecting-IP header not found." 400
  | .InvalidIp ip => HttpResponse.error ("Invalid IP address: " ++ ip) 400
  | .V6NotSupported => HttpResponse.error "IPv6 is not supported." 400

/-- `From<Responses> for Result<Response>` (lib.rs lines 12-19): the reply
the `fetch` handler sends for each outcome. -/
def Responses.toResponse : Responses → HttpResponse
  | .Ok ip => HttpResponse.ok ip.str
  | .BadRequest err => err.toResponse

end Worker

example : Worker.respond (some "127.0.0.1") = .Ok ⟨127, 0, 0, 1⟩ := by decide
example : Worker.respond (some "::ffff:7f00:1") = .Ok ⟨127, 0, 0, 1⟩ := by decide
example : Worker.respond (some "::1") = .BadRequest .V6NotSupported := by decide
example : Worker.respond none = .BadRequest .HeaderNotFound := by decide
example : Worker.respond (some "invalid") = .BadRequest (.InvalidIp "invalid") := by
  decide

/-! ## The network oracle

Each Rust network round trip (`send()` followed by `.json::<T>()`) is
modelled by the outcome the code then interprets: the request could not be
sent, the body did not decode as `T`, or a decoded value of `T`. -/

/-- The outcome of one HTTP round trip decoded as `α`. -/
inductive HttpResult (α : Type) where
  | sendFailed
  | notJson
  | ok (value : α)
deriving DecidableEq, Repr

/-! ## The client's worker call (src/cf-ddns-client/src/worker.rs) -/

namespace Client

/-- `cf_ddns_client::worker::GetIpError` (the opaque `reqwest::Error`
payloads are dropped). -/
inductive GetIpError where
  | RequestFailed
  | ResponseNotJson
  | UnsuccessfulResponse (response : CfDdns.Response)
deriving DecidableEq, Repr

/-- `get_ip(url)` (worker.rs lines 46-57) as a function of the round trip's
outcome: a send failure is `RequestFailed`, a non-JSON body is
`ResponseNotJson`, and a decoded envelope yields its `result` address when
present, otherwise `UnsuccessfulResponse` carrying the envelope. -/
def get_ip (fetch : HttpResult CfDdns.Response) : Except GetIpError IpAddr :=
  match fetch with
  | .sendFailed => .error .RequestFailed
  | .notJson => .error .ResponseNotJson
  | .ok response =>
    match response.result with
    | some ip => .ok (.V4 ip)
    | none => .error (.UnsuccessfulResponse response)

end Client

/-! ## The Cloudflare provider client (src/cf-ddns-client/src/cloudflare.rs) -/

namespace Cloudflare

/-- `CfResponseInfo = ResponseInfo<i32>`. -/
abbrev CfResponseInfo := CfDdns.ResponseInfo Int

/-- `ListResponse<T>`: the list-valued Cloudflare envelope. -/
structure ListResponse (T : Type) where
  success : Bool
  errors : List CfResponseInfo
  result : List T
deriving DecidableEq, Repr

/-- `Response<T>`: the object-valued Cloudflare envelope. -/
structure Response (T : Type) where
  success : Bool
  errors : List CfResponseInfo
  result : T
deriving DecidableEq, Repr

/-- `Id`: a list entry carrying only an id. -/
structure Id where
  id : String
deriving DecidableEq, Repr

/-- `RecordContent`: the tagged content of a DNS record; unrecognized types
decode to `Other`. -/
inductive RecordContent where
  | A (content : Ipv4Addr)
  | AAAA (content : Ipv6Addr)
  | Other
deriving DecidableEq, Repr

/-- `Record`: a DNS record. -/
structure Record where
  id : String
  zone_name : String
  name : String
  content : RecordContent
deriving DecidableEq, Repr

/-- `UpdateRecord`: the PATCH body, holding exactly the content text and the
record type. -/
structure UpdateRecord where
  content : String
  type : String
deriving DecidableEq, Repr

/-- `From<IpAddr> for UpdateRecord` (cloudflare.rs lines 84-97): V4 →
type `A` with dotted-decimal content, V6 → type `AAAA` with the standard
textual form. -/
def UpdateRecord.ofIpAddr : IpAddr → UpdateRecord
  | .V4 ip => { content := ip.str, type := "A" }
  | .V6 ip => { content := ip.str, type := "AAAA" }

/-- `CloudflareError<T>`. -/
inductive CloudflareError (T : Type) where
  | RequestFailed
  | ResponseNotJson
  | Error (errors : List CfResponseInfo)
  | EmptyResult
  | ApiSpecific (inner : T)
deriving DecidableEq, Repr

/-- `NoApiSpecific`: no additional API-specific errors. -/
structure NoApiSpecific where
deriving DecidableEq, Repr

/-- `GetRecordIdError`. -/
inductive GetRecordIdError where
  | InvalidRecordType (recordType : String)
deriving DecidableEq, Repr

/-- `Cloudflare::get_zone_id` (cloudflare.rs lines 202-223) as a function of
the round trip's outcome: the four-way taxonomy, returning the first
entry's id on success. -/
def get_zone_id (fetch : HttpResult (ListResponse Id)) :
    Except (CloudflareError NoApiSpecific) String :=
  match fetch with
  | .sendFailed => .error .RequestFailed
  | .notJson => .error .ResponseNotJson
  | .ok response =>
    if ¬response.success then .error (.Error response.errors)
    else
      match response.result.head? with
      | none => .error .EmptyResult
      | some first => .ok first.id

/-- `Cloudflare::get_record_id` (cloudflare.rs lines 226-249) as a function
of the round trip's outcome: same shape over `ListResponse<Record>`. -/
def get_record_id (fetch : HttpResult (ListResponse Record)) :
    Except (CloudflareError GetRecordIdError) String :=
  match fetch with
  | .sendFailed => .error .RequestFailed
  | .notJson => .error .ResponseNotJson
  | .ok response =>
    if ¬response.success then .error (.Error response.errors)
    else
      match response.result.head? with
      | none => .error .EmptyResult
      | some first => .ok first.id

/-- `Cloudflare::update_record` (cloudflare.rs lines 254-277): builds the
PATCH body from the address, sends it (`transport` receives exactly the
built body), and interprets the object-valued envelope; there is no list,
hence no empty-result check. -/
def update_record (content : IpAddr)
    (transport : UpdateRecord → HttpResult (Response Record)) :
    Except (CloudflareError NoApiSpecific) Record :=
  let request_body := UpdateRecord.ofIpAddr content
  match transport request_body with
  | .sendFailed => .error .RequestFailed
  | .notJson => .error .ResponseNotJson
  | .ok response =>
    if ¬response.success then .error (.Error response.errors)
    else .ok response.result

end Cloudflare

/-! ## The update orchestrator (src/cf-ddns-client/src/main.rs)

`main` is embedded as a function of the parsed arguments and a `World`
oracle giving the outcome of each network round trip the pipeline may
issue.  It returns the sequence of provider calls actually made (so that
short-circuiting is observable) together with the process outcome; `none`
stands for the two `unreachable!` branches that clap's argument groups rule
out. -/

namespace Main

/-- The argument fields of `Args` that the pipeline reads (url, token and
debug flag are external collaborators). -/
structure Args where
  zone_name : String
  zone_id : Option String
  record_name : Option String
  record_id : Option String
deriving DecidableEq, Repr

/-- One network call made by the pipeline. -/
inductive Call where
  | getIp
  | getZoneId (name : String)
  | getRecordId (zoneId : String) (name : String)
  | updateRecord (zoneId : String) (recordId : String) (ip : IpAddr)
deriving DecidableEq, Repr

/-- The outcome of each round trip the pipeline may issue, keyed by the
request data the code sends. -/
structure World where
  ipFetch : HttpResult CfDdns.Response
  zoneFetch : String → HttpResult (Cloudflare.ListResponse Cloudflare.Id)
  recordFetch : String → String → HttpResult (Cloudflare.ListResponse Cloudflare.Record)
  updateTransport : String → String → Cloudflare.UpdateRecord →
    HttpResult (Cloudflare.Response Cloudflare.Record)

/-- `std::process::ExitCode` as `main` uses it. -/
inductive ExitCode where
  | success
  | failure
deriving DecidableEq, Repr

/-- Stage 4 of `main` (main.rs lines 133-142): the update call and the
final report. -/
def updateStage (w : World) (trace : List Call) (ip : IpAddr)
    (zone_id record_id : String) : List Call × Option ExitCode :=
  let trace := trace ++ [Call.updateRecord zone_id record_id ip]
  match Cloudflare.update_record ip (w.updateTransport zone_id record_id) with
  | .ok _ => (trace, some .success)
  | .error _ => (trace, some .failure)

/-- Stage 3 of `main` (main.rs lines 114-127): a supplied record name is
qualified with the zone name and looked up (this arm wins even when an id
is also present); otherwise a supplied record id is used directly; clap
rules out the remaining case (`unreachable!`). -/
def recordStage (args : Args) (w : World) (trace : List Call) (ip : IpAddr)
    (zone_id : String) : List Call × Option ExitCode :=
  match args.record_name, args.record_id with
  | some record_name, _ =>
    let full_record_name := record_name ++ "." ++ args.zone_name
    let trace := trace ++ [Call.getRecordId zone_id full_record_name]
    match Cloudflare.get_record_id (w.recordFetch zone_id full_record_name) with
    | .ok record_id => updateStage w trace ip zone_id record_id
    | .error _ => (trace, some .failure)
  | _, some record_id => updateStage w trace ip zone_id record_id
  | _, _ => (trace, none)

/-- Stage 2 of `main` (main.rs lines 99-108): a supplied zone id is used
directly, otherwise the zone is resolved by name. -/
def zoneStage (args : Args) (w : World) (trace : List Call) (ip : IpAddr) :
    List Call × Option ExitCode :=
  match args.zone_id with
  | some zone_id => recordStage args w trace ip zone_id
  | none =>
    let trace := trace ++ [Call.getZoneId args.zone_name]
    match Cloudflare.get_zone_id (w.zoneFetch args.zone_name) with
    | .ok zone_id => recordStage args w trace ip zone_id
    | .error _ => (trace, some .failure)

/-- `main` (main.rs lines 83-143): discover the IP, then resolve the zone,
then the record, then update, returning failure at the first failing
stage. -/
def mainRun (args : Args) (w : World) : List Call × Option ExitCode :=
  match Client.get_ip w.ipFetch with
  | .error _ => ([Call.getIp], some .failure)
  | .ok ip => zoneStage args w [Call.getIp] ip

end Main

/-! ## Concrete data used by counterexamples and witnesses -/

/-- A decoded envelope that declares failure yet carries a result address:
`get_ip` returns the address instead of failing, refuting the claim that it
fails exactly when the `success` flag is false. -/
def envSuccessFalseWithResult : CfDdns.Response :=
  { success := false, errors := [], result := some ⟨1, 2, 3, 4⟩ }

/-- Arguments updating record `www` (by name) in zone `example.com` (by
id). -/
def wwwArgs : Main.Args :=
  { zone_name := "example.com", zone_id := some "z1",
    record_name := some "www", record_id := none }

/-- The record returned by the stub provider below. -/
def wwwRecord : Cloudflare.Record :=
  { id := "r1", zone_name := "example.com", name := "www.example.com",
    content := .A ⟨1, 2, 3, 4⟩ }

/-- A stub provider on which every round trip of the pipeline succeeds. -/
def demoWorld : Main.World :=
  { ipFetch := .ok (CfDdns.Response.ofIp ⟨1, 2, 3, 4⟩),
    zoneFetch := fun _ =>
      .ok { success := true, errors := [], result := [⟨"z1"⟩] },
    recordFetch := fun _ _ =>
      .ok { success := true, errors := [], result := [wwwRecord] },
    updateTransport := fun _ _ _ =>
      .ok { success := true, errors := [], result := wwwRecord } }

/-! ## Theorems -/

/-- C4: every envelope produced by the provided constructors satisfies
`success == result.is_some() == errors.is_empty()`: a success value yields
`{success:true, errors:[], result:Some(v)}` and an error value yields
`{success:false, errors:[one ResponseInfo with the human-readable message
for that code], result:None}`, exhaustively over every declared error
variant. -/
theorem C4_envelope_invariant :
    (∀ ip : Ipv4Addr, CfDdns.Response.ofIp ip =
      { success := true, errors := [], result := some ip }) ∧
    (∀ e : CfDdns.Error, CfDdns.Response.ofError e =
      { success := false,
        errors := [{ code := e, message := e.message }],
        result := none }) ∧
    (CfDdns.Error.HeaderNotFound.message = "CF-Connecting-IP header not found." ∧
      (∀ s, (CfDdns.Error.InvalidIp s).message = "Invalid IP address: " ++ s) ∧
      CfDdns.Error.V6NotSupported.message = "IPv6 addresses are not supported.") ∧
    (∀ r : Except CfDdns.Error Ipv4Addr,
      ((CfDdns.Response.ofResult r).success =
          (CfDdns.Response.ofResult r).result.isSome) ∧
      ((CfDdns.Response.ofResult r).success =
          (CfDdns.Response.ofResult r).errors.isEmpty)) := by
  refine ⟨fun ip => rfl, fun e => rfl, ⟨rfl, fun s => rfl, rfl⟩, fun r => ?_⟩
  cases r <;> simp [CfDdns.Response.ofResult, CfDdns.Response.ofIp,
    CfDdns.Response.ofError]

/-- C7: for every header input (including absence), `respond` yields exactly
one outcome, deterministically in the header text: `HeaderNotFound` when
the header is absent, `InvalidIp(raw)` when the value does not parse as an
IP address, `Ok(address)` when the canonicalized address is IPv4, and
`V6NotSupported` for every remaining IPv6 address. -/
theorem C7_respond_cases (header : Option String) :
    (header = none → Worker.respond header = .BadRequest .HeaderNotFound) ∧
    (∀ s, header = some s → parseIpAddr s = none →
      Worker.respond header = .BadRequest (.InvalidIp s)) ∧
    (∀ s addr v4, header = some s → parseIpAddr s = some addr →
      addr.toCanonical = .V4 v4 → Worker.respond header = .Ok v4) ∧
    (∀ s addr v6, header = some s → parseIpAddr s = some addr →
      addr.toCanonical = .V6 v6 →
      Worker.respond header = .BadRequest .V6NotSupported) := by
  refine ⟨?_, ?_, ?_, ?_⟩
  · intro h; subst h; rfl
  · intro s hs hp; subst hs; simp [Worker.respond, hp]
  · intro s addr v4 hs hp hc; subst hs; simp [Worker.respond, hp, hc]
  · intro s addr v6 hs hp hc; subst hs; simp [Worker.respond, hp, hc]

/-- Witness for C7 at the concrete header values of the spec. -/
theorem C7_respond_cases_witness :
    Worker.respond none = .BadRequest .HeaderNotFound ∧
    Worker.respond (some "invalid") = .BadRequest (.InvalidIp "invalid") ∧
    Worker.respond (some "127.0.0.1") = .Ok ⟨127, 0, 0, 1⟩ ∧
    Worker.respond (some "::1") = .BadRequest .V6NotSupported :=
  ⟨(C7_respond_cases none).1 rfl,
   (C7_respond_cases (some "invalid")).2.1 "invalid" rfl (by decide),
   (C7_respond_cases (some "127.0.0.1")).2.2.1 "127.0.0.1"
     (.V4 ⟨127, 0, 0, 1⟩) ⟨127, 0, 0, 1⟩ rfl (by decide) (by decide),
   (C7_respond_cases (some "::1")).2.2.2 "::1"
     (.V6 ⟨0, 0, 0, 0, 0, 0, 0, 1⟩) ⟨0, 0, 0, 0, 0, 0, 0, 1⟩ rfl
     (by decide) (by decide)⟩

/-- C2: every header value parsing as an IPv4-mapped IPv6 address is
canonicalized to its IPv4 form before the v4/v6 branch, so `respond` yields
`Ok` with the embedded IPv4 address, never `V6NotSupported`. -/
theorem C2_mapped_ipv6_accepted (s : String) (v6 : Ipv6Addr) (v4 : Ipv4Addr)
    (hparse : parseIpAddr s = some (.V6 v6))
    (hmapped : v6.toIpv4Mapped = some v4) :
    Worker.respond (some s) = .Ok v4 := by
  simp [Worker.respond, hparse, IpAddr.toCanonical, Ipv6Addr.toCanonical,
    hmapped]

/-- Witness for C2 at the spec's example `"::ffff:7f00:1"`, which yields
`127.0.0.1`. -/
theorem C2_mapped_ipv6_accepted_witness :
    Worker.respond (some "::ffff:7f00:1") = .Ok ⟨127, 0, 0, 1⟩ :=
  C2_mapped_ipv6_accepted "::ffff:7f00:1" ⟨0, 0, 0, 0, 0, 0xffff, 0x7f00, 1⟩
    ⟨127, 0, 0, 1⟩ (by decide) (by decide)

/-- Counterexample to C1 as stated: for a decoded envelope with
`success = false` but a present `result`, `get_ip` succeeds (it tests the
`result` field, not the `success` flag). -/
theorem C1_success_flag_counterexample :
    envSuccessFalseWithResult.success = false ∧
    Client.get_ip (.ok envSuccessFalseWithResult) =
      .ok (.V4 ⟨1, 2, 3, 4⟩) := ⟨rfl, rfl⟩

/-- C1 (amended): `get_ip` fails with `RequestFailed` when the request
cannot be sent, with `ResponseNotJson` when the body does not decode as the
envelope shape, and for every decoded envelope fails (propagating the
envelope as `UnsuccessfulResponse`) exactly when the envelope's `result`
field is absent; otherwise it returns the envelope's result address. -/
theorem C1_get_ip_taxonomy (fetch : HttpResult CfDdns.Response) :
    (Client.get_ip fetch = .error .RequestFailed ↔ fetch = .sendFailed) ∧
    (Client.get_ip fetch = .error .ResponseNotJson ↔ fetch = .notJson) ∧
    (∀ env, fetch = .ok env →
      ((∃ e, Client.get_ip fetch = .error e) ↔ env.result = none) ∧
      (env.result = none →
        Client.get_ip fetch = .error (.UnsuccessfulResponse env)) ∧
      (∀ ip, env.result = some ip → Client.get_ip fetch = .ok (.V4 ip))) := by
  refine ⟨?_, ?_, ?_⟩
  · cases fetch with
    | sendFailed => simp [Client.get_ip]
    | notJson => simp [Client.get_ip]
    | ok env =>
      cases h : env.result <;> simp [Client.get_ip, h]
  · cases fetch with
    | sendFailed => simp [Client.get_ip]
    | notJson => simp [Client.get_ip]
    | ok env =>
      cases h : env.result <;> simp [Client.get_ip, h]
  · intro env henv
    subst henv
    refine ⟨?_, ?_, ?_⟩
    · cases h : env.result <;> simp [Client.get_ip, h]
    · intro h; simp [Client.get_ip, h]
    · intro ip h; simp [Client.get_ip, h]

/-- Witness for C1 at concrete envelopes: the worker-constructed error
envelope (absent result) is propagated, and a result-bearing envelope
yields its address. -/
theorem C1_get_ip_taxonomy_witness :
    Client.get_ip (.ok (CfDdns.Response.ofError .HeaderNotFound)) =
      .error (.UnsuccessfulResponse (CfDdns.Response.ofError .HeaderNotFound)) ∧
    Client.get_ip (.ok (CfDdns.Response.ofIp ⟨203, 0, 113, 7⟩)) =
      .ok (.V4 ⟨203, 0, 113, 7⟩) :=
  ⟨((C1_get_ip_taxonomy _).2.2 _ rfl).2.1 (by decide),
   ((C1_get_ip_taxonomy _).2.2 _ rfl).2.2 ⟨203, 0, 113, 7⟩ (by decide)⟩

/-- C5: zone resolution and record resolution fail with `RequestFailed`
when the transport call errors, `ResponseNotJson` when the body does not
decode as the list envelope, `Error` (carrying the envelope's errors) when
the decoded envelope's `success` flag is false, and `EmptyResult` when
`success` is true but the result list is empty; on success each returns the
id of the first entry of the result list (first-wins when several entries
match), and `get_record_id` never returns its `ApiSpecific` error. -/
theorem C5_lookup_taxonomy :
    (∀ fetch : HttpResult (Cloudflare.ListResponse Cloudflare.Id),
      (Cloudflare.get_zone_id fetch = .error .RequestFailed ↔
        fetch = .sendFailed) ∧
      (Cloudflare.get_zone_id fetch = .error .ResponseNotJson ↔
        fetch = .notJson) ∧
      (∀ env, fetch = .ok env →
        (env.success = false →
          Cloudflare.get_zone_id fetch = .error (.Error env.errors)) ∧
        (env.success = true → env.result = [] →
          Cloudflare.get_zone_id fetch = .error .EmptyResult) ∧
        (∀ first rest, env.success = true → env.result = first :: rest →
          Cloudflare.get_zone_id fetch = .ok first.id))) ∧
    (∀ fetch : HttpResult (Cloudflare.ListResponse Cloudflare.Record),
      (Cloudflare.get_record_id fetch = .error .RequestFailed ↔
        fetch = .sendFailed) ∧
      (Cloudflare.get_record_id fetch = .error .ResponseNotJson ↔
        fetch = .notJson) ∧
      (∀ env, fetch = .ok env →
        (env.success = false →
          Cloudflare.get_record_id fetch = .error (.Error env.errors)) ∧
        (env.success = true → env.result = [] →
          Cloudflare.get_record_id fetch = .error .EmptyResult) ∧
        (∀ first rest, env.success = true → env.result = first :: rest →
          Cloudflare.get_record_id fetch = .ok first.id))) ∧
    (∀ fetch e, Cloudflare.get_record_id fetch ≠ .error (.ApiSpecific e)) := by
  refine ⟨fun fetch => ⟨?_, ?_, ?_⟩, fun fetch => ⟨?_, ?_, ?_⟩, ?_⟩
  · cases fetch with
    | sendFailed => simp [Cloudflare.get_zone_id]
    | notJson => simp [Cloudflare.get_zone_id]
    | ok env =>
      cases hs : env.success <;> cases hr : env.result <;>
        simp [Cloudflare.get_zone_id, hs, hr]
  · cases fetch with
    | sendFailed => simp [Cloudflare.get_zone_id]
    | notJson => simp [Cloudflare.get_zone_id]
    | ok env =>
      cases hs : env.success <;> cases hr : env.result <;>
        simp [Cloudflare.get_zone_id, hs, hr]
  · intro env henv
    subst henv
    exact ⟨fun hs => by simp [Cloudflare.get_zone_id, hs],
      fun hs hr => by simp [Cloudflare.get_zone_id, hs, hr],
      fun first rest hs hr => by simp [Cloudflare.get_zone_id, hs, hr]⟩
  · cases fetch with
    | sendFailed => simp [Cloudflare.get_record_id]
    | notJson => simp [Cloudflare.get_record_id]
    | ok env =>
      cases hs : env.success <;> cases hr : env.result <;>
        simp [Cloudflare.get_record_id, hs, hr]
  · cases fetch with
    | sendFailed => simp [Cloudflare.get_record_id]
    | notJson => simp [Cloudflare.get_record_id]
    | ok env =>
      cases hs : env.success <;> cases hr : env.result <;>
        simp [Cloudflare.get_record_id, hs, hr]
  · intro env henv
    subst henv
    exact ⟨fun hs => by simp [Cloudflare.get_record_id, hs],
      fun hs hr => by simp [Cloudflare.get_record_id, hs, hr],
      fun first rest hs hr => by simp [Cloudflare.get_record_id, hs, hr]⟩
  · intro fetch e
    cases fetch with
    | sendFailed => simp [Cloudflare.get_record_id]
    | notJson => simp [Cloudflare.get_record_id]
    | ok env =>
      cases hs : env.success <;> cases hr : env.result <;>
        simp [Cloudflare.get_record_id, hs, hr]

/-- Witness for C5: the tie-break case (two entries; the first id wins) for
both lookups, the empty-result case, and a provider-declared failure. -/
theorem C5_lookup_taxonomy_witness :
    Cloudflare.get_zone_id
      (.ok { success := true, errors := [], result := [⟨"z1"⟩, ⟨"z2"⟩] }) =
      .ok "z1" ∧
    Cloudflare.get_record_id
      (.ok { success := true, errors := [],
             result := [wwwRecord, { wwwRecord with id := "r2" }] }) =
      .ok "r1" ∧
    Cloudflare.get_zone_id
      (.ok { success := true, errors := [], result := [] }) =
      .error .EmptyResult ∧
    Cloudflare.get_zone_id
      (.ok { success := false, errors := [{ code := 9109, message := "bad" }],
             result := [] }) =
      .error (.Error [{ code := 9109, message := "bad" }]) :=
  ⟨((C5_lookup_taxonomy.1 _).2.2 _ rfl).2.2 ⟨"z1"⟩ [⟨"z2"⟩] rfl rfl,
   ((C5_lookup_taxonomy.2.1 _).2.2 _ rfl).2.2 wwwRecord
     [{ wwwRecord with id := "r2" }] rfl rfl,
   ((C5_lookup_taxonomy.1 _).2.2 _ rfl).2.1 rfl rfl,
   ((C5_lookup_taxonomy.1 _).2.2 _ rfl).1 rfl⟩

/-- C9: `update_record` builds its request deterministically — a V4 address
yields type `A` with dotted-decimal content, a V6 address yields type
`AAAA` with the standard textual form; the result depends on the transport
only through its answer to that built body (only type and content are
sent); and its failures are exactly `RequestFailed`, `ResponseNotJson` or
`Error` — it never returns `EmptyResult`. -/
theorem C9_update_request (ip : IpAddr)
    (transport : Cloudflare.UpdateRecord →
      HttpResult (Cloudflare.Response Cloudflare.Record)) :
    (∀ v4, ip = .V4 v4 →
      Cloudflare.UpdateRecord.ofIpAddr ip =
        { content := v4.str, type := "A" }) ∧
    (∀ v6, ip = .V6 v6 →
      Cloudflare.UpdateRecord.ofIpAddr ip =
        { content := v6.str, type := "AAAA" }) ∧
    (∀ t2 : Cloudflare.UpdateRecord →
        HttpResult (Cloudflare.Response Cloudflare.Record),
      transport (Cloudflare.UpdateRecord.ofIpAddr ip) =
          t2 (Cloudflare.UpdateRecord.ofIpAddr ip) →
      Cloudflare.update_record ip transport =
        Cloudflare.update_record ip t2) ∧
    Cloudflare.update_record ip transport ≠ .error .EmptyResult ∧
    (∀ e, Cloudflare.update_record ip transport = .error e →
      e = .RequestFailed ∨ e = .ResponseNotJson ∨
        ∃ errs, e = .Error errs) := by
  refine ⟨?_, ?_, ?_, ?_, ?_⟩
  · intro v4 h; subst h; rfl
  · intro v6 h; subst h; rfl
  · intro t2 h
    simp only [Cloudflare.update_record]
    rw [h]
  · cases ht : transport (Cloudflare.UpdateRecord.ofIpAddr ip) with
    | sendFailed => simp [Cloudflare.update_record, ht]
    | notJson => simp [Cloudflare.update_record, ht]
    | ok response =>
      cases hs : response.success <;>
        simp [Cloudflare.update_record, ht, hs]
  · intro e he
    cases ht : transport (Cloudflare.UpdateRecord.ofIpAddr ip) with
    | sendFailed =>
      simp [Cloudflare.update_record, ht] at he
      simp [he]
    | notJson =>
      simp [Cloudflare.update_record, ht] at he
      simp [he]
    | ok response =>
      cases hs : response.success <;>
        simp [Cloudflare.update_record, ht, hs] at he
      exact .inr (.inr ⟨response.errors, he.symm⟩)

/-- Witness for C9 at concrete inputs: a V4 body, a V6 body, and a failing
transport that still never yields `EmptyResult`. -/
theorem C9_update_request_witness :
    Cloudflare.UpdateRecord.ofIpAddr (.V4 ⟨5, 6, 7, 8⟩) =
      { content := "5.6.7.8", type := "A" } ∧
    Cloudflare.UpdateRecord.ofIpAddr (.V6 ⟨0x2001, 0xdb8, 0, 0, 0, 0, 0, 1⟩) =
      { content := "2001:db8::1", type := "AAAA" } ∧
    Cloudflare.update_record (.V4 ⟨5, 6, 7, 8⟩) (fun _ => .sendFailed) ≠
      .error .EmptyResult := by
  refine ⟨?_, ?_,
    (C9_update_request (.V4 ⟨5, 6, 7, 8⟩) (fun _ => .sendFailed)).2.2.2.1⟩
  · rw [(C9_update_request (.V4 ⟨5, 6, 7, 8⟩) (fun _ => .sendFailed)).1
      ⟨5, 6, 7, 8⟩ rfl]
    decide
  · rw [(C9_update_request (.V6 ⟨0x2001, 0xdb8, 0, 0, 0, 0, 0, 1⟩)
      (fun _ => .sendFailed)).2.1 ⟨0x2001, 0xdb8, 0, 0, 0, 0, 0, 1⟩ rfl]
    decide

/-- C3 evaluated on the code: the worker's reply carries status 200 for an
accepted address and 400 for every rejection (that half of the claim
holds), but its body is the bare text the `worker` crate's
`Response::ok`/`Response::error` produce — the dotted-decimal address
(here, the 7-character text `1.2.3.4`) or the error message — not the
serialized `{success, errors, result}` envelope the shared
`cf_ddns::Response` type (and the client's `get_ip` decoder) define. -/
theorem C3_worker_reply_evaluation :
    (∀ ip, Worker.Responses.toResponse (.Ok ip) =
      { status := 200, body := ip.str }) ∧
    (∀ err, (Worker.Responses.toResponse (.BadRequest err)).status = 400) ∧
    Worker.respond (some "1.2.3.4") = .Ok ⟨1, 2, 3, 4⟩ ∧
    Worker.Responses.toResponse (.Ok ⟨1, 2, 3, 4⟩) =
      { status := 200, body := "1.2.3.4" } ∧
    Worker.Responses.toResponse (.BadRequest .HeaderNotFound) =
      { status := 400, body := "CF-Connecting-IP header not found." } := by
  refine ⟨fun ip => rfl, fun err => ?_, by decide, by decide, by decide⟩
  cases err <;> rfl

/-- The update stage always appends exactly one `updateRecord` call to the
trace, whatever the transport answers. -/
theorem updateStage_trace (w : Main.World) (t : List Main.Call) (ip : IpAddr)
    (z r : String) :
    (Main.updateStage w t ip z r).1 = t ++ [Main.Call.updateRecord z r ip] := by
  simp only [Main.updateStage]
  cases Cloudflare.update_record ip (w.updateTransport z r) <;> rfl

/-- Every call in the record stage's trace is inherited, is the qualified
record lookup, or is the update call of a successfully resolved record. -/
theorem recordStage_mem (args : Main.Args) (w : Main.World)
    (t : List Main.Call) (ip : IpAddr) (z : String) (c : Main.Call)
    (h : c ∈ (Main.recordStage args w t ip z).1) :
    c ∈ t
    ∨ (∃ rn, args.record_name = some rn ∧
        c = Main.Call.getRecordId z (rn ++ "." ++ args.zone_name))
    ∨ (∃ r, c = Main.Call.updateRecord z r ip ∧
        ((∃ rn, args.record_name = some rn ∧
            Cloudflare.get_record_id
              (w.recordFetch z (rn ++ "." ++ args.zone_name)) = .ok r)
         ∨ (args.record_name = none ∧ args.record_id = some r))) := by
  cases hrn : args.record_name with
  | some rn =>
    simp only [Main.recordStage, hrn] at h
    cases hrr : Cloudflare.get_record_id
        (w.recordFetch z (rn ++ "." ++ args.zone_name)) with
    | ok rid =>
      rw [hrr, updateStage_trace] at h
      simp only [List.append_assoc, List.mem_append, List.mem_singleton] at h
      rcases h with h | h | h
      · exact .inl h
      · exact .inr (.inl ⟨rn, rfl, h⟩)
      · exact .inr (.inr ⟨rid, h, .inl ⟨rn, rfl, hrr⟩⟩)
    | error e =>
      rw [hrr] at h
      simp only [List.mem_append, List.mem_singleton] at h
      rcases h with h | h
      · exact .inl h
      · exact .inr (.inl ⟨rn, rfl, h⟩)
  | none =>
    cases hri : args.record_id with
    | some rid =>
      simp only [Main.recordStage, hrn, hri, updateStage_trace] at h
      simp only [List.mem_append, List.mem_singleton] at h
      rcases h with h | h
      · exact .inl h
      · exact .inr (.inr ⟨rid, h, .inr ⟨rfl, rfl⟩⟩)
    | none =>
      simp only [Main.recordStage, hrn, hri] at h
      exact .inl h

/-- Every call in the zone stage's trace is inherited, is the zone lookup,
or belongs to the record stage run with a zone id that was supplied
directly or successfully resolved. -/
theorem zoneStage_mem (args : Main.Args) (w : Main.World)
    (t : List Main.Call) (ip : IpAddr) (c : Main.Call)
    (h : c ∈ (Main.zoneStage args w t ip).1) :
    c ∈ t
    ∨ c = Main.Call.getZoneId args.zone_name
    ∨ ∃ z,
        (args.zone_id = some z ∨
         (args.zone_id = none ∧
           Cloudflare.get_zone_id (w.zoneFetch args.zone_name) = .ok z)) ∧
        ((∃ rn, args.record_name = some rn ∧
            c = Main.Call.getRecordId z (rn ++ "." ++ args.zone_name))
         ∨ (∃ r, c = Main.Call.updateRecord z r ip ∧
             ((∃ rn, args.record_name = some rn ∧
                 Cloudflare.get_record_id
                   (w.recordFetch z (rn ++ "." ++ args.zone_name)) = .ok r)
              ∨ (args.record_name = none ∧ args.record_id = some r)))) := by
  cases hz : args.zone_id with
  | some z =>
    simp only [Main.zoneStage, hz] at h
    rcases recordStage_mem args w t ip z c h with h | h | h
    · exact .inl h
    · exact .inr (.inr ⟨z, .inl rfl, .inl h⟩)
    · exact .inr (.inr ⟨z, .inl rfl, .inr h⟩)
  | none =>
    simp only [Main.zoneStage, hz] at h
    cases hzr : Cloudflare.get_zone_id (w.zoneFetch args.zone_name) with
    | ok z =>
      rw [hzr] at h
      rcases recordStage_mem args w _ ip z c h with h | h | h
      · simp only [List.mem_append, List.mem_singleton] at h
        rcases h with h | h
        · exact .inl h
        · exact .inr (.inl h)
      · exact .inr (.inr ⟨z, .inr ⟨rfl, rfl⟩, .inl h⟩)
      · exact .inr (.inr ⟨z, .inr ⟨rfl, rfl⟩, .inr h⟩)
    | error e =>
      rw [hzr] at h
      simp only [List.mem_append, List.mem_singleton] at h
      rcases h with h | h
      · exact .inl h
      · exact .inr (.inl h)

/-- Every call in a pipeline run's trace is the IP discovery call, or a
later stage's call reached because every preceding stage succeeded. -/
theorem mainRun_mem (args : Main.Args) (w : Main.World) (c : Main.Call)
    (h : c ∈ (Main.mainRun args w).1) :
    c = Main.Call.getIp
    ∨ ∃ ip, Client.get_ip w.ipFetch = .ok ip ∧
      (c = Main.Call.getZoneId args.zone_name
       ∨ ∃ z,
          (args.zone_id = some z ∨
           (args.zone_id = none ∧
             Cloudflare.get_zone_id (w.zoneFetch args.zone_name) = .ok z)) ∧
          ((∃ rn, args.record_name = some rn ∧
              c = Main.Call.getRecordId z (rn ++ "." ++ args.zone_name))
           ∨ (∃ r, c = Main.Call.updateRecord z r ip ∧
               ((∃ rn, args.record_name = some rn ∧
                   Cloudflare.get_record_id
                     (w.recordFetch z (rn ++ "." ++ args.zone_name)) = .ok r)
                ∨ (args.record_name = none ∧ args.record_id = some r))))) := by
  cases hip : Client.get_ip w.ipFetch with
  | error e =>
    simp only [Main.mainRun, hip, List.mem_singleton] at h
    exact .inl h
  | ok ip =>
    simp only [Main.mainRun, hip] at h
    rcases zoneStage_mem args w _ ip c h with h | h | h
    · simp only [List.mem_singleton] at h
      exact .inl h
    · exact .inr ⟨ip, rfl, .inl h⟩
    · exact .inr ⟨ip, rfl, .inr h⟩

/-- C6: a failure at any stage aborts the pipeline immediately and no later
stage runs — in particular, if IP discovery fails, or zone resolution (a
name lookup that errors) fails, or record resolution (the qualified name
lookup erroring for whatever zone id was resolved) fails, then
`update_record` is never invoked. -/
theorem C6_short_circuit (args : Main.Args) (w : Main.World)
    (hfail :
      (∃ e, Client.get_ip w.ipFetch = .error e) ∨
      (args.zone_id = none ∧
        ∃ e, Cloudflare.get_zone_id (w.zoneFetch args.zone_name) = .error e) ∨
      (∃ rn, args.record_name = some rn ∧ ∀ zid, ∃ e,
        Cloudflare.get_record_id
          (w.recordFetch zid (rn ++ "." ++ args.zone_name)) = .error e)) :
    ∀ z r ip, Main.Call.updateRecord z r ip ∉ (Main.mainRun args w).1 := by
  intro z r ip hmem
  rcases mainRun_mem args w _ hmem with h | ⟨ip0, hip, h⟩
  · cases h
  rcases h with h | ⟨z0, hz, h⟩
  · cases h
  rcases h with ⟨rn, _, h⟩ | ⟨r0, heq, hrec⟩
  · cases h
  rcases hfail with ⟨e, he⟩ | ⟨hzn, e, hze⟩ | ⟨rn, hrn, hall⟩
  · rw [hip] at he; cases he
  · rcases hz with hz | ⟨_, hzk⟩
    · rw [hzn] at hz; cases hz
    · rw [hzk] at hze; cases hze
  · rcases hrec with ⟨rn2, hrn2, hok⟩ | ⟨hnone, _⟩
    · rw [hrn] at hrn2
      cases hrn2
      obtain ⟨e, he⟩ := hall z0
      rw [hok] at he; cases he
    · rw [hrn] at hnone; cases hnone

/-- Witness for C6: with a stub provider whose zone lookup errors, the run
of the pipeline (zone id looked up by name) contains no update call. -/
theorem C6_short_circuit_witness :
    Main.Call.updateRecord "z1" "r1" (.V4 ⟨1, 2, 3, 4⟩) ∉
      (Main.mainRun { wwwArgs with zone_id := none }
        { demoWorld with zoneFetch := fun _ => .sendFailed }).1 :=
  C6_short_circuit { wwwArgs with zone_id := none }
    { demoWorld with zoneFetch := fun _ => .sendFailed }
    (.inr (.inl ⟨rfl, .RequestFailed, rfl⟩)) "z1" "r1" (.V4 ⟨1, 2, 3, 4⟩)

/-- C8: every record lookup the orchestrator issues is for the supplied
record name concatenated with `.` and the zone name. -/
theorem C8_record_qualification (args : Main.Args) (w : Main.World)
    (zid name : String)
    (h : Main.Call.getRecordId zid name ∈ (Main.mainRun args w).1) :
    ∃ rn, args.record_name = some rn ∧
      name = rn ++ "." ++ args.zone_name := by
  rcases mainRun_mem args w _ h with h | ⟨ip0, _, h⟩
  · cases h
  rcases h with h | ⟨z0, _, h⟩
  · cases h
  rcases h with ⟨rn, hrn, heq⟩ | ⟨r0, heq, _⟩
  · cases heq
    exact ⟨rn, hrn, rfl⟩
  · cases heq

/-- Witness for C8: resolving record name `www` under zone `example.com`
issues a lookup for exactly `www.example.com`, and that is the qualified
name the theorem reconstructs. -/
theorem C8_record_qualification_witness :
    Main.Call.getRecordId "z1" "www.example.com" ∈
      (Main.mainRun wwwArgs demoWorld).1 ∧
    ∃ rn, wwwArgs.record_name = some rn ∧
      "www.example.com" = rn ++ "." ++ wwwArgs.zone_name :=
  ⟨by decide,
   C8_record_qualification wwwArgs demoWorld "z1" "www.example.com"
     (by decide)⟩

/-- C10: whenever `get_ip` returns successfully the address is V4 (the
decoded envelope's result field is an IPv4 address), so every update the
orchestrator issues carries a V4 address whose request body has record type
`A`; an `AAAA` update is unreachable through the pipeline. -/
theorem C10_pipeline_is_v4_only :
    (∀ fetch ip, Client.get_ip fetch = .ok ip → ∃ v4, ip = IpAddr.V4 v4) ∧
    (∀ args w z r ip,
      Main.Call.updateRecord z r ip ∈ (Main.mainRun args w).1 →
      ∃ v4, ip = IpAddr.V4 v4 ∧
        Cloudflare.UpdateRecord.ofIpAddr ip =
          { content := v4.str, type := "A" }) := by
  have hv4 : ∀ fetch ip, Client.get_ip fetch = .ok ip →
      ∃ v4, ip = IpAddr.V4 v4 := by
    intro fetch ip h
    cases fetch with
    | sendFailed => cases h
    | notJson => cases h
    | ok env =>
      cases hr : env.result with
      | none => simp [Client.get_ip, hr] at h
      | some v4 =>
        simp [Client.get_ip, hr] at h
        exact ⟨v4, h.symm⟩
  refine ⟨hv4, ?_⟩
  intro args w z r ip hmem
  rcases mainRun_mem args w _ hmem with h | ⟨ip0, hip, h⟩
  · cases h
  rcases h with h | ⟨z0, _, h⟩
  · cases h
  rcases h with ⟨rn, _, h⟩ | ⟨r0, heq, _⟩
  · cases h
  cases heq
  obtain ⟨v4, hv⟩ := hv4 _ _ hip
  subst hv
  exact ⟨v4, rfl, rfl⟩

/-- Witness for C10: on the stub provider, the update call the pipeline
issues carries the V4 address the worker reported, and its request body has
type `A`. -/
theorem C10_pipeline_is_v4_only_witness :
    (∃ v4, IpAddr.V4 ⟨1, 2, 3, 4⟩ = IpAddr.V4 v4) ∧
    (∃ v4, IpAddr.V4 ⟨1, 2, 3, 4⟩ = IpAddr.V4 v4 ∧
      Cloudflare.UpdateRecord.ofIpAddr (.V4 ⟨1, 2, 3, 4⟩) =
        { content := v4.str, type := "A" }) :=
  ⟨C10_pipeline_is_v4_only.1 (.ok (CfDdns.Response.ofIp ⟨1, 2, 3, 4⟩))
     (.V4 ⟨1, 2, 3, 4⟩) rfl,
   C10_pipeline_is_v4_only.2 wwwArgs demoWorld "z1" "r1" (.V4 ⟨1, 2, 3, 4⟩)
     (by decide)⟩
